import Mathlib

/-
Shallow embedding of the DLL localization frontend (src/src/dllnode.hpp).
Scalars (C++ double and float) are modelled as exact integers: no operation
of the translated code divides, rounds or takes a square root concretely,
and every theorem below is parametric in the scalar values, so any linearly
ordered commutative ring serves; the integers keep every definition
evaluable inside the kernel. External
library routines with no source in this repository (tf getRPY and setRPY,
the square root and trigonometric functions of the math library, the
lookupTransform results, the isnan test on doubles, and the three alignment
back ends DLLSolver::solve, Grid3d::alignNDT, Grid3d::alignICP) are abstract
parameters collected in an Env record. Everything else is translated
line by line from dllnode.hpp.
-/

namespace DLL

/-- Scalar type of the embedding, standing in for the C++ floating point
types. -/
abbrev Scalar : Type := Int

/-- Three dimensional vector over the scalars, modelling tf Vector3
restricted to its x, y, z components. -/
structure Vec3 where
  x : Scalar
  y : Scalar
  z : Scalar
deriving DecidableEq

/-- Componentwise addition, modelling tf Vector3 addition. -/
def Vec3.add (a b : Vec3) : Vec3 := ⟨a.x + b.x, a.y + b.y, a.z + b.z⟩

/-- Componentwise negation, modelling tf unary minus on Vector3. -/
def Vec3.neg (a : Vec3) : Vec3 := ⟨-a.x, -a.y, -a.z⟩

/-- Squared euclidean norm, the value tf Vector3 length2 computes; tf
Vector3 length is the square root of this. -/
def normSq (v : Vec3) : Scalar := v.x * v.x + v.y * v.y + v.z * v.z

/-- Row major 3 by 3 matrix over the scalars, modelling tf Matrix3x3. -/
structure Mat3 where
  r00 : Scalar
  r01 : Scalar
  r02 : Scalar
  r10 : Scalar
  r11 : Scalar
  r12 : Scalar
  r20 : Scalar
  r21 : Scalar
  r22 : Scalar
deriving DecidableEq

/-- Identity matrix, modelling tf Matrix3x3 setIdentity. -/
def Mat3.id : Mat3 := ⟨1, 0, 0, 0, 1, 0, 0, 0, 1⟩

/-- Matrix product, modelling tf Matrix3x3 multiplication. -/
def Mat3.mul (a b : Mat3) : Mat3 :=
  ⟨a.r00 * b.r00 + a.r01 * b.r10 + a.r02 * b.r20,
   a.r00 * b.r01 + a.r01 * b.r11 + a.r02 * b.r21,
   a.r00 * b.r02 + a.r01 * b.r12 + a.r02 * b.r22,
   a.r10 * b.r00 + a.r11 * b.r10 + a.r12 * b.r20,
   a.r10 * b.r01 + a.r11 * b.r11 + a.r12 * b.r21,
   a.r10 * b.r02 + a.r11 * b.r12 + a.r12 * b.r22,
   a.r20 * b.r00 + a.r21 * b.r10 + a.r22 * b.r20,
   a.r20 * b.r01 + a.r21 * b.r11 + a.r22 * b.r21,
   a.r20 * b.r02 + a.r21 * b.r12 + a.r22 * b.r22⟩

/-- Matrix transpose, modelling tf Matrix3x3 transpose. -/
def Mat3.transpose (a : Mat3) : Mat3 :=
  ⟨a.r00, a.r10, a.r20, a.r01, a.r11, a.r21, a.r02, a.r12, a.r22⟩

/-- Matrix times vector, modelling tf Matrix3x3 applied to a Vector3. -/
def Mat3.mulVec (m : Mat3) (v : Vec3) : Vec3 :=
  ⟨m.r00 * v.x + m.r01 * v.y + m.r02 * v.z,
   m.r10 * v.x + m.r11 * v.y + m.r12 * v.z,
   m.r20 * v.x + m.r21 * v.y + m.r22 * v.z⟩

/-- Rigid transform as stored by tf Transform: a basis matrix and an
origin vector. -/
structure Transform where
  basis : Mat3
  origin : Vec3
deriving DecidableEq

/-- Identity transform, modelling tf Transform setIdentity. -/
def Transform.idT : Transform := ⟨Mat3.id, ⟨0, 0, 0⟩⟩

/-- Transform composition, modelling tf Transform multiplication:
basis is the product of the bases and origin is the left transform
applied to the right origin. -/
def Transform.compose (a b : Transform) : Transform :=
  ⟨a.basis.mul b.basis, (a.basis.mulVec b.origin).add a.origin⟩

/-- Transform inverse as tf computes it: the transposed basis, applied
to the negated origin. -/
def Transform.inv (t : Transform) : Transform :=
  ⟨t.basis.transpose, t.basis.transpose.mulVec t.origin.neg⟩

/-- A transform applied to a point, modelling the tf Transform call
operator: basis times the point plus the origin. -/
def Transform.apply (t : Transform) (v : Vec3) : Vec3 :=
  (t.basis.mulVec v).add t.origin

/-- Environment of a callback invocation: the results and behaviour of
every external routine the node calls. Lookup results are none when the
corresponding lookupTransform throws. The rpy field models tf Matrix3x3
getRPY and returns the triple (roll, pitch, yaw); setRPY models building
the basis of a tf Quaternion from roll, pitch and yaw. The solve,
alignNDT and alignICP fields model the three alignment back ends: each
receives the point list and the four pose parameters tx, ty, tz, yaw and
returns their refined values (the C++ code passes them by reference). -/
structure Env where
  now : Scalar
  odomLookup : Option Transform
  pclLookup : Option Transform
  rpy : Mat3 → Scalar × Scalar × Scalar
  setRPY : Scalar → Scalar → Scalar → Mat3
  sqrt : Scalar → Scalar
  sin : Scalar → Scalar
  cos : Scalar → Scalar
  isNan : Scalar → Bool
  solve : List Vec3 → Scalar → Scalar → Scalar → Scalar → Scalar × Scalar × Scalar × Scalar
  alignNDT : List Vec3 → Scalar → Scalar → Scalar → Scalar → Scalar × Scalar × Scalar × Scalar
  alignICP : List Vec3 → Scalar → Scalar → Scalar → Scalar → Scalar × Scalar × Scalar × Scalar

/-- Mutable member state of DLLNode that the modelled callbacks read or
write. -/
structure NodeState where
  init : Bool
  doUpdate : Bool
  tfCache : Bool
  pclTf : Transform
  roll : Scalar
  pitch : Scalar
  yaw : Scalar
  dTh : Scalar
  aTh : Scalar
  tTh : Scalar
  lastOdomTf : Transform
  lastGlobalTf : Transform
  lastPeriodicUpdate : Scalar
  alignMethod : Int
  useImu : Bool
  globalFrameId : String
  initZOffset : Scalar
deriving DecidableEq

/-- Translation of DLLNode PointCloud2_to_PointXYZ: keep exactly the
points whose squared norm is strictly above 1 and strictly below 10000,
in input order. -/
def PointCloud2_to_PointXYZ (incloud : List Vec3) : List Vec3 :=
  incloud.filter (fun p =>
    decide (normSq p > 1) && decide (normSq p < 10000))

/-- Relative odometry motion since the last registration, the transform
T = lastOdomTf.inverse times odomTf of checkUpdateThresholds. -/
def odomDelta (s : NodeState) (oT : Transform) : Transform :=
  s.lastOdomTf.inv.compose oT

/-- Translation threshold test of checkUpdateThresholds:
T.getOrigin length greater than update_min_d. -/
def transExceeded (env : Env) (s : NodeState) (oT : Transform) : Bool :=
  decide (env.sqrt (normSq (odomDelta s oT).origin) > s.dTh)

/-- Yaw threshold test of checkUpdateThresholds: absolute yaw of the
relative motion, as extracted by getRPY, greater than update_min_a. -/
def yawExceeded (env : Env) (s : NodeState) (oT : Transform) : Bool :=
  decide (|(env.rpy (odomDelta s oT).basis).2.2| > s.aTh)

/-- Time threshold test of checkUpdateThresholds: seconds since the last
trigger greater than update_min_time. -/
def timeExceeded (env : Env) (s : NodeState) : Bool :=
  decide (env.now - s.lastPeriodicUpdate > s.tTh)

/-- State change shared by the three trigger branches of
checkUpdateThresholds: the pending update flag is raised and the
periodic update stamp is set to the time captured at entry. -/
def triggerUpdate (env : Env) (s : NodeState) : NodeState :=
  { s with doUpdate := true, lastPeriodicUpdate := env.now }

/-- Translation of DLLNode checkUpdateThresholds. Returns the boolean
result together with the node state after the call. -/
def checkUpdateThresholds (env : Env) (s : NodeState) : Bool × NodeState :=
  if s.init = false then (false, s)
  else
    match env.odomLookup with
    | none => (false, s)
    | some oT =>
      if transExceeded env s oT then (true, triggerUpdate env s)
      else if yawExceeded env s oT then (true, triggerUpdate env s)
      else if timeExceeded env s then (true, triggerUpdate env s)
      else (false, s)

/-- Record of one invocation of an alignment back end inside
pointcloudCallback: the method selected, the arguments passed (the
tilt compensated points and the four pose parameters), the roll and
pitch values in effect at the call, and the four refined values the
call wrote back. -/
structure SolverCall where
  method : Int
  points : List Vec3
  tx : Scalar
  ty : Scalar
  tz : Scalar
  yaw : Scalar
  roll : Scalar
  pitch : Scalar
  outTx : Scalar
  outTy : Scalar
  outTz : Scalar
  outYaw : Scalar
deriving DecidableEq

/-- Translation of the alignment dispatch of pointcloudCallback: method
1 calls the DLL solver, 2 the NDT aligner, 3 the ICP aligner, each with
the same argument list; any other value calls nothing and leaves the
four pose parameters unchanged. Returns the resulting pose parameters
and a record of the call made, if any. -/
def dispatchAlign (env : Env) (m : Int) (pts : List Vec3)
    (tx ty tz yaw roll pitch : Scalar) : (Scalar × Scalar × Scalar × Scalar) × Option SolverCall :=
  if m = 1 then
    let o := env.solve pts tx ty tz yaw
    (o, some ⟨1, pts, tx, ty, tz, yaw, roll, pitch, o.1, o.2.1, o.2.2.1, o.2.2.2⟩)
  else if m = 2 then
    let o := env.alignNDT pts tx ty tz yaw
    (o, some ⟨2, pts, tx, ty, tz, yaw, roll, pitch, o.1, o.2.1, o.2.2.1, o.2.2.2⟩)
  else if m = 3 then
    let o := env.alignICP pts tx ty tz yaw
    (o, some ⟨3, pts, tx, ty, tz, yaw, roll, pitch, o.1, o.2.1, o.2.2.1, o.2.2.2⟩)
  else ((tx, ty, tz, yaw), none)

/-- The pose prior of a registration cycle, mapTf = lastGlobalTf times
odomTf of pointcloudCallback. -/
def mapTfOf (s : NodeState) (oT : Transform) : Transform :=
  s.lastGlobalTf.compose oT

/-- Roll used by the cycle: kept from the IMU sourced member when
use_imu is set, otherwise extracted from mapTf by getRPY. -/
def rollUsed (env : Env) (s : NodeState) (oT : Transform) : Scalar :=
  if s.useImu then s.roll else (env.rpy (mapTfOf s oT).basis).1

/-- Pitch used by the cycle: kept from the IMU sourced member when
use_imu is set, otherwise extracted from mapTf by getRPY. -/
def pitchUsed (env : Env) (s : NodeState) (oT : Transform) : Scalar :=
  if s.useImu then s.pitch else (env.rpy (mapTfOf s oT).basis).2.1

/-- Yaw used by the cycle, extracted from mapTf by getRPY in both
branches of the use_imu test. -/
def yawUsed (env : Env) (s : NodeState) (oT : Transform) : Scalar :=
  (env.rpy (mapTfOf s oT).basis).2.2

/-- The incoming cloud transformed into the base frame, modelling
pcl_ros transformPointCloud with the cached cloud-to-base transform:
every point is mapped by that rigid transform. -/
def baseCloudOf (cloud : List Vec3) (pT : Transform) : List Vec3 :=
  cloud.map pT.apply

/-- The candidate set of a cycle: the base frame cloud passed through
PointCloud2_to_PointXYZ. -/
def downCloudOf (cloud : List Vec3) (pT : Transform) : List Vec3 :=
  PointCloud2_to_PointXYZ (baseCloudOf cloud pT)

/-- The tilt compensation matrix written out in pointcloudCallback,
with sr, cr, sp, cp the sine and cosine of roll and pitch. -/
def tiltRotation (sr cr sp cp : Scalar) : Mat3 :=
  ⟨cp, sp * sr, cr * sp,
   0, cr, -sr,
   -sp, cp * sr, cp * cr⟩

/-- The points handed to the alignment call: every candidate point
mapped by the tilt compensation matrix built from the roll and pitch
used by the cycle. -/
def pointsUsed (env : Env) (s : NodeState) (cloud : List Vec3)
    (oT pT : Transform) : List Vec3 :=
  (downCloudOf cloud pT).map
    (Mat3.mulVec (tiltRotation (env.sin (rollUsed env s oT))
      (env.cos (rollUsed env s oT)) (env.sin (pitchUsed env s oT))
      (env.cos (pitchUsed env s oT))))

/-- Data a completed registration cycle carries into the final state
update: the odometry transform of the cycle, the cloud-to-base
transform used, the roll and pitch used, and the dispatch result. -/
structure PCData where
  odomTf : Transform
  pclTf : Transform
  roll : Scalar
  pitch : Scalar
  result : (Scalar × Scalar × Scalar × Scalar) × Option SolverCall
deriving DecidableEq

/-- The straight line body of pointcloudCallback once all early returns
have been passed, with oT the odometry lookup result and pT the cached
cloud-to-base transform. -/
def pcBuild (env : Env) (s : NodeState) (cloud : List Vec3)
    (oT pT : Transform) : PCData :=
  ⟨oT, pT, rollUsed env s oT, pitchUsed env s oT,
   dispatchAlign env s.alignMethod (pointsUsed env s cloud oT pT)
     (mapTfOf s oT).origin.x (mapTfOf s oT).origin.y (mapTfOf s oT).origin.z
     (yawUsed env s oT) (rollUsed env s oT) (pitchUsed env s oT)⟩

/-- Early return structure of pointcloudCallback: nothing happens unless
the filter is initialized, an update is pending, the odometry lookup
succeeds, and a cloud-to-base transform is available (cached, or else
freshly looked up). -/
def pcCompute (env : Env) (s : NodeState) (cloud : List Vec3) :
    Option PCData :=
  if s.init = false then none
  else if s.doUpdate = false then none
  else
    match env.odomLookup with
    | none => none
    | some oT =>
      match (if s.tfCache then some s.pclTf else env.pclLookup) with
      | none => none
      | some pT => some (pcBuild env s cloud oT pT)

/-- Final state update of pointcloudCallback: store the roll, pitch and
refined yaw, rebuild the global transform from the refined pose and the
inverse odometry transform, remember the odometry transform, mark the
cloud transform cached, and clear the pending update flag. -/
def applyPC (env : Env) (s : NodeState) (d : PCData) : NodeState :=
  { s with
    roll := d.roll,
    pitch := d.pitch,
    yaw := d.result.1.2.2.2,
    lastGlobalTf :=
      (Transform.mk (env.setRPY d.roll d.pitch d.result.1.2.2.2)
        ⟨d.result.1.1, d.result.1.2.1, d.result.1.2.2.1⟩).compose d.odomTf.inv,
    lastOdomTf := d.odomTf,
    tfCache := true,
    pclTf := d.pclTf,
    doUpdate := false }

/-- Translation of DLLNode pointcloudCallback. Returns the node state
after the call and a record of the alignment invocation, if one was
made. -/
def pointcloudCallback (env : Env) (s : NodeState) (cloud : List Vec3) :
    NodeState × Option SolverCall :=
  match pcCompute env s cloud with
  | none => (s, none)
  | some d => (applyPC env s d, d.result.2)

/-- Translation of DLLNode imuCallback with M the orientation matrix
decoded from the message quaternion: the stored roll, pitch and yaw are
overwritten by getRPY of M, then all three are restored to their saved
previous values if any of the new ones is NaN. -/
def imuCallback (env : Env) (s : NodeState) (M : Mat3) : NodeState :=
  let r := s.roll
  let p := s.pitch
  let y := s.yaw
  let rpyM := env.rpy M
  let s1 := { s with roll := rpyM.1, pitch := rpyM.2.1, yaw := rpyM.2.2 }
  if env.isNan s1.roll || env.isNan s1.pitch || env.isNan s1.yaw then
    { s1 with roll := r, pitch := p, yaw := y }
  else s1

/-- Translation of DLLNode setInitialPose with initPose the received
pose: on odometry lookup success, store the looked up transform, take
roll and pitch from it unless use_imu is set, take yaw from the pose,
rebuild the global transform, clear the pending update flag and mark
the filter initialized. -/
def setInitialPose (env : Env) (s : NodeState) (initPose : Transform) :
    NodeState :=
  match env.odomLookup with
  | none => s
  | some oT =>
    let roll := if s.useImu then s.roll else (env.rpy oT.basis).1
    let pitch := if s.useImu then s.pitch else (env.rpy oT.basis).2.1
    let yaw := (env.rpy initPose.basis).2.2
    { s with
      lastOdomTf := oT,
      roll := roll,
      pitch := pitch,
      yaw := yaw,
      lastGlobalTf :=
        (Transform.mk (env.setRPY roll pitch yaw)
          ⟨initPose.origin.x, initPose.origin.y,
           initPose.origin.z + s.initZOffset⟩).compose oT.inv,
      doUpdate := false,
      init := true }

/-- Translation of DLLNode initialPoseReceived: messages whose header
frame differs from the global frame are ignored, otherwise the filter
is given the received pose as initial pose. -/
def initialPoseReceived (env : Env) (s : NodeState) (frameId : String)
    (pose : Transform) : NodeState :=
  if frameId ≠ s.globalFrameId then s
  else setInitialPose env s pose

/-- Two matrices with equal entries are equal. -/
lemma Mat3.ext9 (a b : Mat3) (h00 : a.r00 = b.r00) (h01 : a.r01 = b.r01)
    (h02 : a.r02 = b.r02) (h10 : a.r10 = b.r10) (h11 : a.r11 = b.r11)
    (h12 : a.r12 = b.r12) (h20 : a.r20 = b.r20) (h21 : a.r21 = b.r21)
    (h22 : a.r22 = b.r22) : a = b := by
  cases a; cases b; simp_all

/-- Matrix multiplication on Mat3 is associative. -/
lemma Mat3.mul_assoc9 (a b c : Mat3) : (a.mul b).mul c = a.mul (b.mul c) := by
  cases a; cases b; cases c
  simp only [Mat3.mul, Mat3.mk.injEq]
  refine ⟨?_, ?_, ?_, ?_, ?_, ?_, ?_, ?_, ?_⟩ <;> ring

/-- The identity matrix is a right unit for Mat3 multiplication. -/
lemma Mat3.mul_id9 (a : Mat3) : a.mul Mat3.id = a := by
  cases a
  simp only [Mat3.mul, Mat3.id, Mat3.mk.injEq]
  refine ⟨?_, ?_, ?_, ?_, ?_, ?_, ?_, ?_, ?_⟩ <;> ring

/-- Composing with the tf style inverse of a transform whose basis has
its transpose as a left inverse cancels: (A composed with inv B)
composed with B is A again. -/
lemma compose_inv_compose (A B : Transform)
    (h : B.basis.transpose.mul B.basis = Mat3.id) :
    (A.compose B.inv).compose B = A := by
  obtain ⟨R, t⟩ := A
  obtain ⟨S, u⟩ := B
  simp only [Transform.compose, Transform.inv, Transform.mk.injEq] at h ⊢
  constructor
  · rw [Mat3.mul_assoc9, h, Mat3.mul_id9]
  · cases R; cases S; cases t; cases u
    simp only [Mat3.mul, Mat3.mulVec, Mat3.transpose, Vec3.add, Vec3.neg,
      Vec3.mk.injEq]
    refine ⟨?_, ?_, ?_⟩ <;> ring

/-- Inversion of pcCompute: a produced cycle datum pins down the early
return conditions and the looked up transforms. -/
lemma pcCompute_inv (env : Env) (s : NodeState) (cloud : List Vec3)
    (d : PCData) (h : pcCompute env s cloud = some d) :
    s.init = true ∧ s.doUpdate = true ∧ ∃ oT pT,
      env.odomLookup = some oT ∧
      (if s.tfCache then some s.pclTf else env.pclLookup) = some pT ∧
      d = pcBuild env s cloud oT pT := by
  unfold pcCompute at h
  by_cases hI : s.init = false
  · simp [hI] at h
  by_cases hD : s.doUpdate = false
  · simp [hI, hD] at h
  rw [if_neg hI, if_neg hD] at h
  cases hO : env.odomLookup with
  | none => rw [hO] at h; simp at h
  | some oT =>
    rw [hO] at h
    cases hP : (if s.tfCache then some s.pclTf else env.pclLookup) with
    | none => rw [hP] at h; simp at h
    | some pT =>
      rw [hP] at h
      simp only [Option.some.injEq] at h
      refine ⟨?_, ?_, oT, pT, rfl, rfl, h.symm⟩
      · revert hI; cases s.init <;> simp
      · revert hD; cases s.doUpdate <;> simp

/-- Forward direction of pcCompute: if the early return conditions hold
then the cycle datum is the one pcBuild constructs. -/
lemma pcCompute_eq (env : Env) (s : NodeState) (cloud : List Vec3)
    (oT pT : Transform) (h1 : s.init = true) (h2 : s.doUpdate = true)
    (h3 : env.odomLookup = some oT)
    (h4 : (if s.tfCache then some s.pclTf else env.pclLookup) = some pT) :
    pcCompute env s cloud = some (pcBuild env s cloud oT pT) := by
  unfold pcCompute
  rw [h1, h2, h3, h4]
  simp

/-- pointcloudCallback on a produced cycle datum applies the final
state update and reports the dispatch trace. -/
lemma pointcloudCallback_of (env : Env) (s : NodeState) (cloud : List Vec3)
    (d : PCData) (h : pcCompute env s cloud = some d) :
    pointcloudCallback env s cloud = (applyPC env s d, d.result.2) := by
  unfold pointcloudCallback
  rw [h]

/-- Inversion of pointcloudCallback: a reported alignment invocation
pins down the whole cycle. -/
lemma pointcloud_run (env : Env) (s : NodeState) (cloud : List Vec3)
    (post : NodeState) (c : SolverCall)
    (h : pointcloudCallback env s cloud = (post, some c)) :
    ∃ oT pT, s.init = true ∧ s.doUpdate = true ∧
      env.odomLookup = some oT ∧
      (if s.tfCache then some s.pclTf else env.pclLookup) = some pT ∧
      post = applyPC env s (pcBuild env s cloud oT pT) ∧
      (pcBuild env s cloud oT pT).result.2 = some c := by
  unfold pointcloudCallback at h
  cases hpc : pcCompute env s cloud with
  | none => rw [hpc] at h; simp at h
  | some d =>
    rw [hpc] at h
    rw [Prod.mk.injEq] at h
    obtain ⟨hpost, hc⟩ := h
    obtain ⟨hI, hD, oT, pT, hO, hP, hd⟩ := pcCompute_inv env s cloud d hpc
    subst hd
    exact ⟨oT, pT, hI, hD, hO, hP, hpost.symm, hc⟩

/-- Inversion of dispatchAlign: a reported invocation pins down the
arguments, the selected method, and the refined values. -/
lemma dispatch_call (env : Env) (m : Int) (pts : List Vec3)
    (tx ty tz yaw roll pitch : Scalar) (c : SolverCall)
    (h : (dispatchAlign env m pts tx ty tz yaw roll pitch).2 = some c) :
    c.method = m ∧ c.points = pts ∧ c.tx = tx ∧ c.ty = ty ∧ c.tz = tz ∧
    c.yaw = yaw ∧ c.roll = roll ∧ c.pitch = pitch ∧
    (dispatchAlign env m pts tx ty tz yaw roll pitch).1 =
      (c.outTx, c.outTy, c.outTz, c.outYaw) ∧
    (m = 1 ∨ m = 2 ∨ m = 3) ∧
    (m = 1 → (c.outTx, c.outTy, c.outTz, c.outYaw) = env.solve pts tx ty tz yaw) ∧
    (m = 2 → (c.outTx, c.outTy, c.outTz, c.outYaw) = env.alignNDT pts tx ty tz yaw) ∧
    (m = 3 → (c.outTx, c.outTy, c.outTz, c.outYaw) = env.alignICP pts tx ty tz yaw) := by
  by_cases h1 : m = 1
  · subst h1
    rw [dispatchAlign, if_pos rfl] at h
    rw [Option.some.injEq] at h
    subst h
    rw [dispatchAlign, if_pos rfl]
    exact ⟨rfl, rfl, rfl, rfl, rfl, rfl, rfl, rfl, rfl, Or.inl rfl,
      fun _ => rfl, fun hm => absurd hm (by decide),
      fun hm => absurd hm (by decide)⟩
  by_cases h2 : m = 2
  · subst h2
    rw [dispatchAlign, if_neg (by decide), if_pos rfl] at h
    rw [Option.some.injEq] at h
    subst h
    rw [dispatchAlign, if_neg (by decide), if_pos rfl]
    exact ⟨rfl, rfl, rfl, rfl, rfl, rfl, rfl, rfl, rfl, Or.inr (Or.inl rfl),
      fun hm => absurd hm (by decide), fun _ => rfl,
      fun hm => absurd hm (by decide)⟩
  by_cases h3 : m = 3
  · subst h3
    rw [dispatchAlign, if_neg (by decide), if_neg (by decide), if_pos rfl] at h
    rw [Option.some.injEq] at h
    subst h
    rw [dispatchAlign, if_neg (by decide), if_neg (by decide), if_pos rfl]
    exact ⟨rfl, rfl, rfl, rfl, rfl, rfl, rfl, rfl, rfl,
      Or.inr (Or.inr rfl),
      fun hm => absurd hm (by decide), fun hm => absurd hm (by decide),
      fun _ => rfl⟩
  · rw [dispatchAlign, if_neg h1, if_neg h2, if_neg h3] at h
    simp at h

/-- Concrete environment used by the witness theorems: identity lookup
results, simple total functions for the abstract math routines, and
alignment back ends that shift one coordinate each so the three methods
are distinguishable. -/
def wEnv : Env where
  now := 10
  odomLookup := some Transform.idT
  pclLookup := some Transform.idT
  rpy := fun m => (m.r00, m.r11, m.r22)
  setRPY := fun r p y => ⟨r, p, y, 0, 0, 0, 0, 0, 0⟩
  sqrt := fun q => q
  sin := fun q => q
  cos := fun _ => 1
  isNan := fun q => decide (q = 99)
  solve := fun _ tx ty tz yaw => (tx + 1, ty, tz, yaw)
  alignNDT := fun _ tx ty tz yaw => (tx, ty + 1, tz, yaw)
  alignICP := fun _ tx ty tz yaw => (tx, ty, tz + 1, yaw)

/-- Concrete node state used by the witness theorems: initialized, with
an update pending, cached identity transforms, unit thresholds, method
1 selected and the IMU disabled. -/
def wState : NodeState where
  init := true
  doUpdate := true
  tfCache := true
  pclTf := Transform.idT
  roll := 0
  pitch := 0
  yaw := 0
  dTh := 1
  aTh := 1
  tTh := 1
  lastOdomTf := Transform.idT
  lastGlobalTf := Transform.idT
  lastPeriodicUpdate := 0
  alignMethod := 1
  useImu := false
  globalFrameId := "map"
  initZOffset := 0

/-- Concrete one point cloud used by the witness theorems. -/
def wCloud : List Vec3 := [⟨2, 0, 0⟩]

/-- The alignment invocation record produced by running the modelled
pointcloudCallback on the concrete witness inputs. -/
def wCall : SolverCall :=
  ⟨1, [⟨2, 0, -2⟩], 0, 0, 0, 1, 1, 1, 1, 0, 0, 1⟩

/-- The node state produced by running the modelled pointcloudCallback
on the concrete witness inputs. -/
def wPost : NodeState := (pointcloudCallback wEnv wState wCloud).1

/-- Rotation about the y axis, written from the specification words,
with sp and cp the sine and cosine of the pitch angle. -/
def rotY (sp cp : Scalar) : Mat3 :=
  ⟨cp, 0, sp, 0, 1, 0, -sp, 0, cp⟩

/-- Rotation about the x axis, written from the specification words,
with sr and cr the sine and cosine of the roll angle. -/
def rotX (sr cr : Scalar) : Mat3 :=
  ⟨1, 0, 0, 0, cr, -sr, 0, sr, cr⟩

/-- C1: checkUpdateThresholds returns true, and raises the pending
update flag, exactly when the filter is initialized, the odometry
lookup succeeds, and at least one of the translation, yaw or time
thresholds is exceeded; on a false return the pending update flag is
left unchanged. -/
theorem checkUpdateThresholds_gating (env : Env) (s : NodeState) :
    ((checkUpdateThresholds env s).1 = true ↔
      s.init = true ∧ ∃ oT, env.odomLookup = some oT ∧
        (transExceeded env s oT = true ∨ yawExceeded env s oT = true ∨
         timeExceeded env s = true))
    ∧ ((checkUpdateThresholds env s).1 = true →
        (checkUpdateThresholds env s).2.doUpdate = true)
    ∧ ((checkUpdateThresholds env s).1 = false →
        (checkUpdateThresholds env s).2.doUpdate = s.doUpdate) := by
  unfold checkUpdateThresholds
  cases hI : s.init with
  | false => simp [hI]
  | true =>
    cases hO : env.odomLookup with
    | none => simp [hO]
    | some oT =>
      cases h1 : transExceeded env s oT with
      | true => simp [triggerUpdate, h1]
      | false =>
        cases h2 : yawExceeded env s oT with
        | true => simp [triggerUpdate, h1, h2]
        | false =>
          cases h3 : timeExceeded env s with
          | true => simp [triggerUpdate, h1, h2, h3]
          | false => simp [h1, h2, h3]

/-- C1 witness: with the concrete environment the time threshold is
exceeded and the check fires. -/
theorem checkUpdateThresholds_gating_witness :
    (checkUpdateThresholds wEnv wState).1 = true :=
  ((checkUpdateThresholds_gating wEnv wState).1).mpr
    ⟨rfl, Transform.idT, rfl, Or.inr (Or.inr (by decide))⟩

/-- C5: a point is retained by PointCloud2_to_PointXYZ exactly when its
squared norm lies strictly between 1 and 10000, output order is a
subsequence of input order, and points exactly at the band edges are
discarded. -/
theorem pointFilter_band (l : List Vec3) :
    (∀ p, p ∈ PointCloud2_to_PointXYZ l ↔
      p ∈ l ∧ (normSq p > 1 ∧ normSq p < 10000))
    ∧ (PointCloud2_to_PointXYZ l).Sublist l
    ∧ (∀ p, normSq p = 1 ∨ normSq p = 10000 →
        p ∉ PointCloud2_to_PointXYZ l) := by
  refine ⟨?_, ?_, ?_⟩
  · intro p
    simp [PointCloud2_to_PointXYZ, List.mem_filter]
  · exact List.filter_sublist _
  · intro p hp hmem
    rw [PointCloud2_to_PointXYZ, List.mem_filter] at hmem
    obtain ⟨-, hf⟩ := hmem
    simp only [Bool.and_eq_true, decide_eq_true_eq] at hf
    rcases hp with h | h
    · rw [h] at hf
      exact absurd hf.1 (by norm_num)
    · rw [h] at hf
      exact absurd hf.2 (by norm_num)

/-- C5 witness: a point of squared norm 4 is retained. -/
theorem pointFilter_band_witness :
    (⟨2, 0, 0⟩ : Vec3) ∈ PointCloud2_to_PointXYZ [⟨2, 0, 0⟩] :=
  ((pointFilter_band [⟨2, 0, 0⟩]).1 ⟨2, 0, 0⟩).mpr
    ⟨by decide, by decide, by decide⟩

/-- C9: an initial pose message whose frame differs from the global
frame leaves the node state untouched. -/
theorem initialPose_frame_guard (env : Env) (s : NodeState)
    (frameId : String) (pose : Transform)
    (h : frameId ≠ s.globalFrameId) :
    initialPoseReceived env s frameId pose = s := by
  unfold initialPoseReceived
  rw [if_pos h]

/-- C9 witness: a pose stamped in the odom frame is ignored when the
global frame is map. -/
theorem initialPose_frame_guard_witness :
    initialPoseReceived wEnv wState "odom" Transform.idT = wState :=
  initialPose_frame_guard wEnv wState "odom" Transform.idT (by decide)

/-- C10: when the stored roll, pitch and yaw are not NaN, they are
still not NaN after imuCallback; the decoded values replace them when
none is NaN, and all three previous values are restored when any
decoded value is NaN. -/
theorem imu_nan_guard (env : Env) (s : NodeState) (M : Mat3)
    (hpre : env.isNan s.roll = false ∧ env.isNan s.pitch = false ∧
            env.isNan s.yaw = false) :
    (env.isNan (imuCallback env s M).roll = false ∧
     env.isNan (imuCallback env s M).pitch = false ∧
     env.isNan (imuCallback env s M).yaw = false)
    ∧ ((env.isNan (env.rpy M).1 = true ∨ env.isNan (env.rpy M).2.1 = true ∨
        env.isNan (env.rpy M).2.2 = true) →
       (imuCallback env s M).roll = s.roll ∧
       (imuCallback env s M).pitch = s.pitch ∧
       (imuCallback env s M).yaw = s.yaw)
    ∧ ((env.isNan (env.rpy M).1 = false ∧ env.isNan (env.rpy M).2.1 = false ∧
        env.isNan (env.rpy M).2.2 = false) →
       (imuCallback env s M).roll = (env.rpy M).1 ∧
       (imuCallback env s M).pitch = (env.rpy M).2.1 ∧
       (imuCallback env s M).yaw = (env.rpy M).2.2) := by
  obtain ⟨hr0, hp0, hy0⟩ := hpre
  cases hr : env.isNan (env.rpy M).1 <;>
    cases hp : env.isNan (env.rpy M).2.1 <;>
      cases hy : env.isNan (env.rpy M).2.2 <;>
        simp [imuCallback, hr, hp, hy, hr0, hp0, hy0]

/-- C10 witness: a clean decode replaces the stored angles by the
decoded ones. -/
theorem imu_nan_guard_witness :
    (imuCallback wEnv wState Mat3.id).roll = (wEnv.rpy Mat3.id).1 ∧
    (imuCallback wEnv wState Mat3.id).pitch = (wEnv.rpy Mat3.id).2.1 ∧
    (imuCallback wEnv wState Mat3.id).yaw = (wEnv.rpy Mat3.id).2.2 :=
  (imu_nan_guard wEnv wState Mat3.id
    ⟨by decide, by decide, by decide⟩).2.2 ⟨by decide, by decide, by decide⟩

/-- C2: the initial pose guess handed to the alignment call is read off
the composition mapTf of the maintained global transform with the
current odometry transform: translation from its origin, yaw from its
getRPY, and roll and pitch also from its getRPY when the IMU is not
used. -/
theorem initialGuess_from_composition (env : Env) (s : NodeState)
    (cloud : List Vec3) (post : NodeState) (c : SolverCall)
    (h : pointcloudCallback env s cloud = (post, some c)) :
    ∃ oT, env.odomLookup = some oT ∧
      c.tx = (mapTfOf s oT).origin.x ∧
      c.ty = (mapTfOf s oT).origin.y ∧
      c.tz = (mapTfOf s oT).origin.z ∧
      c.yaw = (env.rpy (mapTfOf s oT).basis).2.2 ∧
      (s.useImu = false →
        c.roll = (env.rpy (mapTfOf s oT).basis).1 ∧
        c.pitch = (env.rpy (mapTfOf s oT).basis).2.1) := by
  obtain ⟨oT, pT, hI, hD, hO, hP, hpost, hc⟩ := pointcloud_run env s cloud post c h
  obtain ⟨hm, hpts, htx, hty, htz, hyaw, hroll, hpitch, hres, hmem, h1, h2, h3⟩ :=
    dispatch_call env s.alignMethod (pointsUsed env s cloud oT pT)
      (mapTfOf s oT).origin.x (mapTfOf s oT).origin.y (mapTfOf s oT).origin.z
      (yawUsed env s oT) (rollUsed env s oT) (pitchUsed env s oT) c hc
  refine ⟨oT, hO, htx, hty, htz, hyaw, ?_⟩
  intro himu
  constructor
  · rw [hroll]
    simp [rollUsed, himu]
  · rw [hpitch]
    simp [pitchUsed, himu]

/-- C2 witness: concrete run of the modelled callback; the odometry
lookup is the identity and the extracted guess matches. -/
theorem initialGuess_from_composition_witness :
    wCall.tx = (mapTfOf wState Transform.idT).origin.x ∧
    wCall.ty = (mapTfOf wState Transform.idT).origin.y ∧
    wCall.tz = (mapTfOf wState Transform.idT).origin.z ∧
    wCall.yaw = (wEnv.rpy (mapTfOf wState Transform.idT).basis).2.2 ∧
    wCall.roll = (wEnv.rpy (mapTfOf wState Transform.idT).basis).1 := by
  obtain ⟨oT, hO, h1, h2, h3, h4, h5⟩ :=
    initialGuess_from_composition wEnv wState wCloud wPost wCall (by decide)
  obtain rfl : Transform.idT = oT := Option.some.inj hO
  exact ⟨h1, h2, h3, h4, (h5 rfl).1⟩

/-- C3: after a registration cycle, the updated global transform
composed with the odometry transform of that cycle is exactly the rigid
transform whose basis is built by setRPY from the stored roll and pitch
and the refined yaw, and whose origin is the refined translation;
stated under the hypothesis that the odometry basis is orthogonal, as
every tf rotation matrix is. -/
theorem globalTf_reproduces_refined_pose (env : Env) (s : NodeState)
    (cloud : List Vec3) (post : NodeState) (c : SolverCall)
    (h : pointcloudCallback env s cloud = (post, some c))
    (horth : post.lastOdomTf.basis.transpose.mul post.lastOdomTf.basis = Mat3.id) :
    post.lastGlobalTf.compose post.lastOdomTf =
      Transform.mk (env.setRPY post.roll post.pitch c.outYaw)
        ⟨c.outTx, c.outTy, c.outTz⟩
    ∧ post.yaw = c.outYaw := by
  obtain ⟨oT, pT, hI, hD, hO, hP, hpost, hc⟩ := pointcloud_run env s cloud post c h
  obtain ⟨hm, hpts, htx, hty, htz, hyaw, hroll, hpitch, hres, hmem, h1, h2, h3⟩ :=
    dispatch_call env s.alignMethod (pointsUsed env s cloud oT pT)
      (mapTfOf s oT).origin.x (mapTfOf s oT).origin.y (mapTfOf s oT).origin.z
      (yawUsed env s oT) (rollUsed env s oT) (pitchUsed env s oT) c hc
  subst hpost
  simp only [applyPC, pcBuild] at horth ⊢
  rw [hres]
  exact ⟨compose_inv_compose _ _ horth, rfl⟩

/-- C3 witness: on the concrete run the composed transform reproduces
the refined pose. -/
theorem globalTf_reproduces_refined_pose_witness :
    wPost.lastGlobalTf.compose wPost.lastOdomTf =
      Transform.mk (wEnv.setRPY wPost.roll wPost.pitch wCall.outYaw)
        ⟨wCall.outTx, wCall.outTy, wCall.outTz⟩
    ∧ wPost.yaw = wCall.outYaw :=
  globalTf_reproduces_refined_pose wEnv wState wCloud wPost wCall
    (by decide) (by decide)

/-- C4: the roll and pitch in effect at the alignment call are exactly
the roll and pitch stored after the callback, whatever refined values
any of the three back ends returns: replacing all three back ends
changes neither stored angle. -/
theorem rollPitch_fixed_across_solve (env : Env) (s : NodeState)
    (cloud : List Vec3) (post : NodeState) (c : SolverCall)
    (h : pointcloudCallback env s cloud = (post, some c)) :
    post.roll = c.roll ∧ post.pitch = c.pitch ∧
    ∀ f g k,
      (pointcloudCallback
        { env with solve := f, alignNDT := g, alignICP := k } s cloud).1.roll
        = c.roll ∧
      (pointcloudCallback
        { env with solve := f, alignNDT := g, alignICP := k } s cloud).1.pitch
        = c.pitch := by
  obtain ⟨oT, pT, hI, hD, hO, hP, hpost, hc⟩ := pointcloud_run env s cloud post c h
  obtain ⟨hm, hpts, htx, hty, htz, hyaw, hroll, hpitch, hres, hmem, h1, h2, h3⟩ :=
    dispatch_call env s.alignMethod (pointsUsed env s cloud oT pT)
      (mapTfOf s oT).origin.x (mapTfOf s oT).origin.y (mapTfOf s oT).origin.z
      (yawUsed env s oT) (rollUsed env s oT) (pitchUsed env s oT) c hc
  subst hpost
  refine ⟨?_, ?_, ?_⟩
  · rw [hroll]
    rfl
  · rw [hpitch]
    rfl
  · intro f g k
    have hrun := pointcloudCallback_of
      { env with solve := f, alignNDT := g, alignICP := k } s cloud _
      (pcCompute_eq { env with solve := f, alignNDT := g, alignICP := k }
        s cloud oT pT hI hD hO hP)
    rw [hrun]
    constructor
    · rw [hroll]
      rfl
    · rw [hpitch]
      rfl

/-- C4 witness: on the concrete run the stored roll and pitch equal the
values in effect at the call, and swapping in a different solver leaves
them unchanged. -/
theorem rollPitch_fixed_across_solve_witness :
    wPost.roll = wCall.roll ∧ wPost.pitch = wCall.pitch ∧
    (pointcloudCallback
      { wEnv with
          solve := fun _ tx ty tz yaw => (tx, ty, tz, yaw + 5)
          alignNDT := wEnv.alignNDT
          alignICP := wEnv.alignICP }
      wState wCloud).1.roll = wCall.roll := by
  obtain ⟨h1, h2, h3⟩ :=
    rollPitch_fixed_across_solve wEnv wState wCloud wPost wCall (by decide)
  exact ⟨h1, h2, (h3 (fun _ tx ty tz yaw => (tx, ty, tz, yaw + 5))
    wEnv.alignNDT wEnv.alignICP).1⟩

/-- C6: the matrix written out in the tilt compensation loop is the
product of the rotation about y by pitch with the rotation about x by
roll, and the points handed to the alignment call are exactly the
retained candidate points mapped by that matrix built from the roll and
pitch in effect; yaw does not enter the matrix. -/
theorem tiltCompensation_matrix (env : Env) (s : NodeState)
    (cloud : List Vec3) (post : NodeState) (c : SolverCall)
    (h : pointcloudCallback env s cloud = (post, some c)) :
    (∀ sr cr sp cp : Scalar,
      tiltRotation sr cr sp cp = (rotY sp cp).mul (rotX sr cr))
    ∧ c.points = (downCloudOf cloud post.pclTf).map
        (Mat3.mulVec (tiltRotation (env.sin c.roll) (env.cos c.roll)
          (env.sin c.pitch) (env.cos c.pitch))) := by
  obtain ⟨oT, pT, hI, hD, hO, hP, hpost, hc⟩ := pointcloud_run env s cloud post c h
  obtain ⟨hm, hpts, htx, hty, htz, hyaw, hroll, hpitch, hres, hmem, h1, h2, h3⟩ :=
    dispatch_call env s.alignMethod (pointsUsed env s cloud oT pT)
      (mapTfOf s oT).origin.x (mapTfOf s oT).origin.y (mapTfOf s oT).origin.z
      (yawUsed env s oT) (rollUsed env s oT) (pitchUsed env s oT) c hc
  subst hpost
  constructor
  · intro sr cr sp cp
    apply Mat3.ext9 <;> (simp [tiltRotation, rotY, rotX, Mat3.mul]; try ring)
  · rw [hpts, hroll, hpitch]
    rfl

/-- C6 witness: on the concrete run the handed points are the tilt
compensated candidates, and the factorization holds at the concrete
sines and cosines. -/
theorem tiltCompensation_matrix_witness :
    wCall.points = (downCloudOf wCloud wPost.pclTf).map
      (Mat3.mulVec (tiltRotation (wEnv.sin wCall.roll) (wEnv.cos wCall.roll)
        (wEnv.sin wCall.pitch) (wEnv.cos wCall.pitch)))
    ∧ tiltRotation 0 1 0 1 = (rotY 0 1).mul (rotX 0 1) := by
  obtain ⟨h1, h2⟩ :=
    tiltCompensation_matrix wEnv wState wCloud wPost wCall (by decide)
  exact ⟨h2, h1 0 1 0 1⟩

/-- C7: the align_method value selects exactly one back end, 1 the DLL
solver, 2 the NDT aligner, 3 the ICP aligner, and whichever is selected
receives exactly the argument list points, tx, ty, tz, yaw recorded in
the invocation. -/
theorem alignMethod_dispatch (env : Env) (s : NodeState)
    (cloud : List Vec3) (post : NodeState) (c : SolverCall)
    (h : pointcloudCallback env s cloud = (post, some c)) :
    c.method = s.alignMethod ∧
    (s.alignMethod = 1 ∨ s.alignMethod = 2 ∨ s.alignMethod = 3) ∧
    (s.alignMethod = 1 → (c.outTx, c.outTy, c.outTz, c.outYaw) =
      env.solve c.points c.tx c.ty c.tz c.yaw) ∧
    (s.alignMethod = 2 → (c.outTx, c.outTy, c.outTz, c.outYaw) =
      env.alignNDT c.points c.tx c.ty c.tz c.yaw) ∧
    (s.alignMethod = 3 → (c.outTx, c.outTy, c.outTz, c.outYaw) =
      env.alignICP c.points c.tx c.ty c.tz c.yaw) := by
  obtain ⟨oT, pT, hI, hD, hO, hP, hpost, hc⟩ := pointcloud_run env s cloud post c h
  obtain ⟨hm, hpts, htx, hty, htz, hyaw, hroll, hpitch, hres, hmem, h1, h2, h3⟩ :=
    dispatch_call env s.alignMethod (pointsUsed env s cloud oT pT)
      (mapTfOf s oT).origin.x (mapTfOf s oT).origin.y (mapTfOf s oT).origin.z
      (yawUsed env s oT) (rollUsed env s oT) (pitchUsed env s oT) c hc
  rw [← hpts, ← htx, ← hty, ← htz, ← hyaw] at h1 h2 h3
  exact ⟨hm, hmem, h1, h2, h3⟩

/-- C7 witness: on the concrete run method 1 is selected and the DLL
solver receives exactly the recorded arguments. -/
theorem alignMethod_dispatch_witness :
    wCall.method = wState.alignMethod ∧
    (wCall.outTx, wCall.outTy, wCall.outTz, wCall.outYaw) =
      wEnv.solve wCall.points wCall.tx wCall.ty wCall.tz wCall.yaw := by
  obtain ⟨h1, h2, h3, h4, h5⟩ :=
    alignMethod_dispatch wEnv wState wCloud wPost wCall (by decide)
  exact ⟨h1, h3 rfl⟩

/-- C8: with the IMU enabled, a cycle running after an IMU message with
a clean decode uses the decoded roll and pitch and takes yaw from the
odometry propagated prior mapTf; with the IMU disabled, roll, pitch and
yaw are all taken from mapTf. -/
theorem rollPitchYaw_sources (env : Env) (s : NodeState) (M : Mat3)
    (cloud : List Vec3) (post : NodeState) (c : SolverCall)
    (hok : env.isNan (env.rpy M).1 = false ∧ env.isNan (env.rpy M).2.1 = false ∧
           env.isNan (env.rpy M).2.2 = false)
    (h : pointcloudCallback env (imuCallback env s M) cloud = (post, some c)) :
    ∃ oT, env.odomLookup = some oT ∧
      (s.useImu = true →
        c.roll = (env.rpy M).1 ∧ c.pitch = (env.rpy M).2.1 ∧
        c.yaw = (env.rpy (mapTfOf (imuCallback env s M) oT).basis).2.2) ∧
      (s.useImu = false →
        c.roll = (env.rpy (mapTfOf (imuCallback env s M) oT).basis).1 ∧
        c.pitch = (env.rpy (mapTfOf (imuCallback env s M) oT).basis).2.1 ∧
        c.yaw = (env.rpy (mapTfOf (imuCallback env s M) oT).basis).2.2) := by
  obtain ⟨oT, pT, hI, hD, hO, hP, hpost, hc⟩ :=
    pointcloud_run env (imuCallback env s M) cloud post c h
  obtain ⟨hm, hpts, htx, hty, htz, hyaw, hroll, hpitch, hres, hmem, h1, h2, h3⟩ :=
    dispatch_call env (imuCallback env s M).alignMethod
      (pointsUsed env (imuCallback env s M) cloud oT pT)
      (mapTfOf (imuCallback env s M) oT).origin.x
      (mapTfOf (imuCallback env s M) oT).origin.y
      (mapTfOf (imuCallback env s M) oT).origin.z
      (yawUsed env (imuCallback env s M) oT)
      (rollUsed env (imuCallback env s M) oT)
      (pitchUsed env (imuCallback env s M) oT) c hc
  have husi : (imuCallback env s M).useImu = s.useImu := by
    cases hcond : (env.isNan (env.rpy M).1 || env.isNan (env.rpy M).2.1 ||
      env.isNan (env.rpy M).2.2) <;> simp [imuCallback, hcond]
  have hr1 : (imuCallback env s M).roll = (env.rpy M).1 := by
    simp [imuCallback, hok.1, hok.2.1, hok.2.2]
  have hp1 : (imuCallback env s M).pitch = (env.rpy M).2.1 := by
    simp [imuCallback, hok.1, hok.2.1, hok.2.2]
  refine ⟨oT, hO, ?_, ?_⟩
  · intro himu
    have hu : (imuCallback env s M).useImu = true := by rw [husi, himu]
    refine ⟨?_, ?_, ?_⟩
    · rw [hroll]
      simp [rollUsed, hu, hr1]
    · rw [hpitch]
      simp [pitchUsed, hu, hp1]
    · exact hyaw
  · intro himu
    have hu : (imuCallback env s M).useImu = false := by rw [husi, himu]
    refine ⟨?_, ?_, ?_⟩
    · rw [hroll]
      simp [rollUsed, hu]
    · rw [hpitch]
      simp [pitchUsed, hu]
    · exact hyaw

/-- Concrete state with the IMU enabled, for the C8 witness. -/
def wStateImu : NodeState := { wState with useImu := true }

/-- Node state produced by the modelled IMU callback followed by the
modelled pointcloud callback on the concrete witness inputs. -/
def wPost8 : NodeState :=
  (pointcloudCallback wEnv (imuCallback wEnv wStateImu Mat3.id) wCloud).1

/-- C8 witness: with the IMU enabled and a clean decode, the concrete
cycle uses the decoded roll and pitch and the prior yaw. -/
theorem rollPitchYaw_sources_witness :
    wCall.roll = (wEnv.rpy Mat3.id).1 ∧
    wCall.pitch = (wEnv.rpy Mat3.id).2.1 ∧
    wCall.yaw =
      (wEnv.rpy (mapTfOf (imuCallback wEnv wStateImu Mat3.id)
        Transform.idT).basis).2.2 := by
  obtain ⟨oT, hO, himu, -⟩ :=
    rollPitchYaw_sources wEnv wStateImu Mat3.id wCloud wPost8 wCall
      ⟨by decide, by decide, by decide⟩ (by decide)
  obtain rfl : Transform.idT = oT := Option.some.inj hO
  exact himu rfl

end DLL
